import Mathlib

/-!
Shallow embedding of the reconciliation core of `helper/envconfig/aliyunlog_operation_wrapper.go`
together with the utility helpers of `pkg/util/util.go` it relies on, and proofs of the
behavioural properties stated in the repository specification.

Modelling conventions:
* Go `map[string]interface{}` values (input-detail maps, JSON-ish values) are modelled by
  the inductive `JValue`; a Go map is an association list `List (String × JValue)`.
* Remote-client calls are modelled by an environment `ClientEnv` that fixes, per operation
  and per retry-attempt index, the outcome the remote control plane would return.
* Every client call the code performs is recorded in an emitted `List RemoteCall`, so that
  "issues N remote calls" claims are statements about this list.
* Machine times are integer seconds (`Int`); `time.Now()` is passed in as a `now` argument.
* `time.Sleep` calls are no-ops for the state modelled here and are omitted.
-/

/-- JSON-like value, modelling Go `interface{}` values stored in input-detail maps. -/
inductive JValue where
  | null : JValue
  | bool (b : Bool) : JValue
  | num (n : Int) : JValue
  | str (s : String) : JValue
  | arr (xs : List JValue) : JValue
  | obj (fields : List (String × JValue)) : JValue

mutual

/-- JSON serialization of a `JValue`, modelling Go `json.Marshal`.  Object fields are
serialized in list order (the association lists model Go maps in canonical order). -/
def renderJ : JValue → String
  | .null => "null"
  | .bool b => if b then "true" else "false"
  | .num n => toString n
  | .str s => "\"" ++ s ++ "\""
  | .arr xs => "[" ++ renderArr xs ++ "]"
  | .obj fs => "\x7b" ++ renderObj fs ++ "\x7d"

/-- Serialization of a JSON array body. -/
def renderArr : List JValue → String
  | [] => ""
  | [x] => renderJ x
  | x :: xs => renderJ x ++ "," ++ renderArr xs

/-- Serialization of a JSON object body. -/
def renderObj : List (String × JValue) → String
  | [] => ""
  | [(k, v)] => "\"" ++ k ++ "\":" ++ renderJ v
  | (k, v) :: fs => "\"" ++ k ++ "\":" ++ renderJ v ++ "," ++ renderObj fs

end

/-- Lookup in an association list modelling a Go `map[string]T` read (`m[k]`). -/
def mapGet {α : Type} (m : List (String × α)) (k : String) : Option α :=
  match m with
  | [] => none
  | (k', v) :: rest => if k' == k then some v else mapGet rest k

/-- Update of an association list modelling a Go `map[string]T` write (`m[k] = v`). -/
def mapSet {α : Type} (m : List (String × α)) (k : String) (v : α) : List (String × α) :=
  match m with
  | [] => [(k, v)]
  | (k', v') :: rest => if k' == k then (k, v) :: rest else (k', v') :: mapSet rest k v

/-- Key-presence test, modelling Go `_, ok := m[k]`. -/
def containsKey {α : Type} (m : List (String × α)) (k : String) : Bool :=
  match m with
  | [] => false
  | (k', _) :: rest => k' == k || containsKey rest k

/-- From `pkg/util/util.go` `InterfaceToString`: a Go type assertion `val.(string)` on a
possibly-nil interface value; a map read that missed yields `none` here (Go nil). -/
def InterfaceToString : Option JValue → String × Bool
  | none => ("", false)
  | some (JValue.str s) => (s, true)
  | some _ => ("", false)

/-- From `pkg/util/util.go` `InterfaceToJSONString`: `json.Marshal` of the value
(`json.Marshal(nil)` yields `"null"`); the error result is dropped at every call site
in the reconciler, and marshalling of `JValue` never fails, so only the string is kept. -/
def InterfaceToJSONString : Option JValue → String
  | none => "null"
  | some v => renderJ v

/-- Character-list prefix test (`pat` starts `s`). -/
def charsStartWith : List Char → List Char → Bool
  | [], _ => true
  | _ :: _, [] => false
  | a :: as, b :: bs => a == b && charsStartWith as bs

/-- Character-list substring test (`pat` occurs somewhere in `s`). -/
def charsContain (pat s : List Char) : Bool :=
  charsStartWith pat s ||
  match s with
  | [] => false
  | _ :: rest => charsContain pat rest

/-- Substring test used to formalize "the error message mentions an identifier or an
operation name": `pat` occurs contiguously in `s`. -/
def containsSubstr (s pat : String) : Bool :=
  charsContain pat.toList s.toList

/-- Prefix test on strings, modelling Go `strings.HasPrefix(s, pre)`. -/
def strStartsWith (s pre : String) : Bool :=
  charsStartWith pre.toList s.toList

/-- Error returned by the aliyun-log SDK client (`*aliyunlog.Error`): an error code as
inspected by the reconciler plus the message text used when wrapping with `fmt.Errorf`. -/
structure SlsError where
  code : String
  message : String
deriving Repr, DecidableEq

/-- Remote collection config object (`aliyunlog.LogConfig`).  Per the specification's
RemoteConfigSnapshot data model, the input detail of a fetched config is a mapping, so
`InputDetail` is an association list (matching the `map[string]interface{}` type
assertion in `updateConfigInner` always succeeding). -/
structure LogConfig where
  Name : String
  InputType : String
  InputDetail : List (String × JValue)
  OutputType : String
  OutputProjectName : String
  OutputLogStoreName : String

/-- The `LogtailConfig` section of an `AliyunLogConfigSpec`; the field shapes are those
used by `updateConfigInner` (`ConfigName`, `InputType`, and the free-form settings map,
accessed in Go as `config.LogtailConfig.LogtailConfig`). -/
structure LogtailConfig where
  ConfigName : String
  InputType : String
  LogtailConfigMap : List (String × JValue)

/-- Declared desired state for one collection config (`AliyunLogConfigSpec`), with
exactly the fields read by the code under `src/`. -/
structure AliyunLogConfigSpec where
  Project : String
  Logstore : String
  ShardCount : Option Int
  LifeCycle : Option Int
  ProductCode : String
  ProductLang : String
  LogtailConfig : LogtailConfig
  SimpleConfig : Bool
  MachineGroups : List String

/-- One remote-client call performed by the reconciler, as recorded in the call trace. -/
inductive RemoteCall where
  | checkProjectExist (project : String)
  | createProject (project : String)
  | checkLogstoreExist (project logstore : String)
  | createLogStore (project logstore : String) (ttl shardCount : Int)
  | createIndex (project logstore : String)
  | createProductLogstore (project logstore product lang : String)
  | getConfig (project configName : String)
  | createConfig (project configName : String)
  | updateConfig (project : String) (cfg : LogConfig)
  | checkMachineGroupExist (project machineGroup : String)
  | createMachineGroup (project machineGroup : String)
  | getAppliedMachineGroups (project configName : String)
  | applyConfigToMachineGroup (project configName machineGroup : String)

/-- Whether a call mutates remote state (every call except the pure reads). -/
def RemoteCall.isMutating : RemoteCall → Bool
  | .checkProjectExist _ => false
  | .checkLogstoreExist _ _ => false
  | .getConfig _ _ => false
  | .checkMachineGroupExist _ _ => false
  | .getAppliedMachineGroups _ _ => false
  | _ => true

/-- Whether a call is an `UpdateConfig` call. -/
def RemoteCall.isUpdateConfig : RemoteCall → Bool
  | .updateConfig _ _ => true
  | _ => false

/-- Whether a call is a `CreateConfig` call. -/
def RemoteCall.isCreateConfig : RemoteCall → Bool
  | .createConfig _ _ => true
  | _ => false

/-- Remote control-plane behaviour: for each client operation, the outcome of the
attempt with the given 0-based index inside that operation's retry loop. -/
structure ClientEnv where
  checkProjectExist : String → Nat → Except SlsError Bool
  createProject : String → Nat → Option SlsError
  checkLogstoreExist : String → String → Nat → Except SlsError Bool
  createLogStore : String → String → Int → Int → Nat → Option SlsError
  createIndex : String → String → Nat → Option SlsError
  createProductLogstore : String → String → String → String → Option SlsError
  getConfig : String → String → Nat → Except SlsError LogConfig
  createConfig : String → LogConfig → Nat → Option SlsError
  updateConfig : String → LogConfig → Nat → Option SlsError
  checkMachineGroupExist : String → String → Nat → Except SlsError Bool
  createMachineGroup : String → String → Nat → Option SlsError
  getAppliedMachineGroups : String → String → Nat → Except SlsError (List String)
  applyConfigToMachineGroup : String → String → String → Nat → Option SlsError

/-- The package-level flag values consumed by the reconciler. -/
structure EnvFlags where
  LogOperationMaxRetryTimes : Nat
  LogResourceCacheExpireSec : Int
  DefaultLogMachineGroup : String

/-- The `operationWrapper` state: default project plus the two TTL caches
(key `"project@@resource"` mapped to the last-confirmed timestamp). -/
structure OperationWrapper where
  project : String
  logstoreCacheMap : List (String × Int)
  configCacheMap : List (String × Int)

/-- Go retry pattern `for i := 0; i < max; i++ { err = op(i); if err == nil { break } }`:
given the value `err` held before the loop, returns the final `err` and the total number
of calls performed.  `i` is the index of the next attempt, `rem` the remaining budget. -/
def retryLoopAux (op : Nat → Option SlsError) : Option SlsError → Nat → Nat → Option SlsError × Nat
  | prev, i, 0 => (prev, i)
  | _, i, Nat.succ rem =>
    match op i with
    | none => (none, i + 1)
    | some e => retryLoopAux op (some e) (i + 1) rem

/-- Entry point of the retry pattern, starting at attempt 0. -/
def retryLoop (op : Nat → Option SlsError) (init : Option SlsError) (max : Nat) : Option SlsError × Nat :=
  retryLoopAux op init 0 max

/-- Go check pattern `for i { if ok, err = check(i); err != nil { sleep } else { break } }`:
on a client error the SDK returns `false` for the flag; returns final flag, final error
and number of calls. -/
def checkLoopAux (op : Nat → Except SlsError Bool) : Bool → Option SlsError → Nat → Nat → Bool × Option SlsError × Nat
  | prevOk, prevErr, i, 0 => (prevOk, prevErr, i)
  | _, _, i, Nat.succ rem =>
    match op i with
    | .ok b => (b, none, i + 1)
    | .error e => checkLoopAux op false (some e) (i + 1) rem

/-- Entry point of the check pattern (`ok` starts `false`, `err` starts `nil`). -/
def checkLoop (op : Nat → Except SlsError Bool) (max : Nat) : Bool × Option SlsError × Nat :=
  checkLoopAux op false none 0 max

/-- The `GetConfig` fetch loop of `updateConfigInner`: an error whose code is
`"ConfigNotExist"` breaks immediately with `ok = false`; any other error is retried;
success breaks with `ok = true`.  Returns `(ok, serverConfig, err, calls)`. -/
def getConfigLoopAux (op : Nat → Except SlsError LogConfig) : Option LogConfig → Option SlsError → Nat → Nat → Bool × Option LogConfig × Option SlsError × Nat
  | prevCfg, prevErr, i, 0 => (false, prevCfg, prevErr, i)
  | _, _, i, Nat.succ rem =>
    match op i with
    | .ok cfg => (true, some cfg, none, i + 1)
    | .error e =>
      if e.code == "ConfigNotExist" then (false, none, some e, i + 1)
      else getConfigLoopAux op none (some e) (i + 1) rem

/-- Entry point of the fetch loop (`serverConfig` starts `nil`, `err` starts `nil`). -/
def getConfigLoop (op : Nat → Except SlsError LogConfig) (max : Nat) : Bool × Option LogConfig × Option SlsError × Nat :=
  getConfigLoopAux op none none 0 max

/-- The `GetAppliedMachineGroups` loop: `for i { xs, err = get(i); if err == nil break }`;
on error the returned slice is `nil` (empty).  Returns `(groups, err, calls)`. -/
def listLoopAux (op : Nat → Except SlsError (List String)) : List String → Option SlsError → Nat → Nat → List String × Option SlsError × Nat
  | prev, prevErr, i, 0 => (prev, prevErr, i)
  | _, _, i, Nat.succ rem =>
    match op i with
    | .ok xs => (xs, none, i + 1)
    | .error e => listLoopAux op [] (some e) (i + 1) rem

/-- Entry point of the list-fetch loop. -/
def listLoop (op : Nat → Except SlsError (List String)) (max : Nat) : List String × Option SlsError × Nat :=
  listLoopAux op [] none 0 max

/-- From `logstoreCacheExists`: a positive cache hit requires a present entry under
`"project@@logstore"` whose age `now - t` is strictly below the TTL in seconds. -/
def logstoreCacheExists (flags : EnvFlags) (o : OperationWrapper) (now : Int) (project logstore : String) : Bool :=
  match mapGet o.logstoreCacheMap (project ++ "@@" ++ logstore) with
  | some lastUpdateTime => decide (now - lastUpdateTime < flags.LogResourceCacheExpireSec)
  | none => false

/-- From `addLogstoreCache`: upserts the current timestamp under `"project@@logstore"`. -/
def addLogstoreCache (o : OperationWrapper) (now : Int) (project logstore : String) : OperationWrapper :=
  { o with logstoreCacheMap := mapSet o.logstoreCacheMap (project ++ "@@" ++ logstore) now }

/-- From `configCacheExists`: same TTL test as `logstoreCacheExists` on the config cache. -/
def configCacheExists (flags : EnvFlags) (o : OperationWrapper) (now : Int) (project config : String) : Bool :=
  match mapGet o.configCacheMap (project ++ "@@" ++ config) with
  | some lastUpdateTime => decide (now - lastUpdateTime < flags.LogResourceCacheExpireSec)
  | none => false

/-- From `addConfigCache`: upserts the current timestamp under `"project@@config"`. -/
def addConfigCache (o : OperationWrapper) (now : Int) (project config : String) : OperationWrapper :=
  { o with configCacheMap := mapSet o.configCacheMap (project ++ "@@" ++ config) now }

/-- From `createProductLogstore`: one call to the managed-product creation API; on
success the logstore cache is recorded; the event-recorder notifications are
fire-and-forget observability and are not part of the modelled state. -/
def createProductLogstore (env : ClientEnv) (o : OperationWrapper) (now : Int) (project logstore product lang : String) : Option SlsError × OperationWrapper × List RemoteCall :=
  match env.createProductLogstore project logstore product lang with
  | some e => (some e, o, [RemoteCall.createProductLogstore project logstore product lang])
  | none => (none, addLogstoreCache o now project logstore, [RemoteCall.createProductLogstore project logstore product lang])

/-- From `makesureProjectExist`: check loop, early return when the project exists,
otherwise a create loop whose final error is returned. -/
def makesureProjectExist (env : ClientEnv) (flags : EnvFlags) (o : OperationWrapper) (project : String) : Option SlsError × OperationWrapper × List RemoteCall :=
  let r1 := checkLoop (env.checkProjectExist project) flags.LogOperationMaxRetryTimes
  let c1 := List.replicate r1.2.2 (RemoteCall.checkProjectExist project)
  if r1.1 then (none, o, c1)
  else
    let r2 := retryLoop (env.createProject project) r1.2.1 flags.LogOperationMaxRetryTimes
    (r2.1, o, c1 ++ List.replicate r2.2 (RemoteCall.createProject project))

/-- From the logstore-creation branch of `makesureLogstoreExist`: `ttl := 180` with
`lifeCycle` taking precedence when positive. -/
def logstoreTTL (lifeCycle : Int) : Int :=
  if 0 < lifeCycle then lifeCycle else 180

/-- From the logstore-creation branch of `makesureLogstoreExist`: non-positive shard
counts default to 2, and the result is capped at 10. -/
def logstoreShardCount (shardCount : Int) : Int :=
  let s := if shardCount ≤ 0 then 2 else shardCount
  if 10 < s then 10 else s

/-- From `makesureLogstoreExist`: cache short-circuit, managed-product and audit
routing, project provisioning, existence check, creation with clamped shard/TTL, and
the non-fatal default-index creation (its error never fails the step). -/
def makesureLogstoreExist (env : ClientEnv) (flags : EnvFlags) (o : OperationWrapper) (now : Int) (project logstore : String) (shardCount lifeCycle : Int) (product lang : String) : Option SlsError × OperationWrapper × List RemoteCall :=
  if logstoreCacheExists flags o now project logstore then (none, o, [])
  else if 0 < product.length then
    createProductLogstore env o now project logstore product (if lang.length == 0 then "cn" else lang)
  else if strStartsWith logstore "audit-" && logstore.length == 39 then
    createProductLogstore env o now project logstore "k8s-audit" "cn"
  else
    let stepP : Option SlsError × OperationWrapper × List RemoteCall :=
      if project != o.project then makesureProjectExist env flags o project
      else (none, o, [])
    match stepP with
    | (some e, oP, cP) => (some e, oP, cP)
    | (none, oP, cP) =>
      let r1 := checkLoop (env.checkLogstoreExist project logstore) flags.LogOperationMaxRetryTimes
      let c1 := List.replicate r1.2.2 (RemoteCall.checkLogstoreExist project logstore)
      if r1.1 then (none, addLogstoreCache oP now project logstore, cP ++ c1)
      else
        let ttl := logstoreTTL lifeCycle
        let shard := logstoreShardCount shardCount
        let r2 := retryLoop (env.createLogStore project logstore ttl shard) r1.2.1 flags.LogOperationMaxRetryTimes
        let c2 := List.replicate r2.2 (RemoteCall.createLogStore project logstore ttl shard)
        match r2.1 with
        | some e => (some e, oP, cP ++ c1 ++ c2)
        | none =>
          let oC := addLogstoreCache oP now project logstore
          let r3 := retryLoop (env.createIndex project logstore) none flags.LogOperationMaxRetryTimes
          let c3 := List.replicate r3.2 (RemoteCall.createIndex project logstore)
          (none, oC, cP ++ c1 ++ c2 ++ c3)

/-- From `makesureMachineGroupExist`: check loop, early success when the group exists,
otherwise a create loop; the final error of the create loop is returned to the caller
as-is (no wrapping). -/
def makesureMachineGroupExist (env : ClientEnv) (flags : EnvFlags) (o : OperationWrapper) (project machineGroup : String) : Option SlsError × OperationWrapper × List RemoteCall :=
  let r1 := checkLoop (env.checkMachineGroupExist project machineGroup) flags.LogOperationMaxRetryTimes
  let c1 := List.replicate r1.2.2 (RemoteCall.checkMachineGroupExist project machineGroup)
  if r1.1 then (none, o, c1)
  else
    let r2 := retryLoop (env.createMachineGroup project machineGroup) r1.2.1 flags.LogOperationMaxRetryTimes
    (r2.1, o, c1 ++ List.replicate r2.2 (RemoteCall.createMachineGroup project machineGroup))

/-- Modelled from the spec: the SDK helper `AddNecessaryInputConfigField` (external to
this repository) fills SDK-required defaults into a deep copy of the input-detail map;
the specification describes the built config object as carrying the declared input
detail map, so the helper is modelled as the identity. -/
def addNecessaryInputConfigField (detail : List (String × JValue)) : List (String × JValue) :=
  detail

/-- From `updateConfigInner`: the effective target project (`config.Project` when
non-empty, otherwise the wrapper's default project). -/
def effectiveProject (o : OperationWrapper) (config : AliyunLogConfigSpec) : String :=
  if config.Project.length != 0 then config.Project else o.project

/-- From `updateConfigInner`: the declared input type, defaulting to the
file-collection type `"file"` (`aliyunlog.InputTypeFile`) when unspecified. -/
def effectiveInputType (config : AliyunLogConfigSpec) : String :=
  if config.LogtailConfig.InputType.length == 0 then "file" else config.LogtailConfig.InputType

/-- From `updateConfigInner`: the locally built full config object
(`aliyunLogConfig`), with output binding to the target project and logstore. -/
def buildAliyunLogConfig (project logstore : String) (config : AliyunLogConfigSpec) : LogConfig :=
  { Name := config.LogtailConfig.ConfigName
    InputType := effectiveInputType config
    InputDetail := addNecessaryInputConfigField config.LogtailConfig.LogtailConfigMap
    OutputType := "LogService"
    OutputProjectName := project
    OutputLogStoreName := logstore }

/-- From `updateConfigInner`: the bind-target machine group (first declared group, or
the process-wide default group). -/
def effectiveMachineGroup (flags : EnvFlags) (config : AliyunLogConfigSpec) : String :=
  match config.MachineGroups with
  | [] => flags.DefaultLogMachineGroup
  | g :: _ => g

/-- From `checkFileConfigChanged`: field-level drift test between the declared values
and the remote input-detail map (paths and patterns as raw strings, include-env and
include-label as marshalled JSON). -/
def checkFileConfigChanged (filePath filePattern includeEnv includeLabel : String) (serverConfigDetail : List (String × JValue)) : Bool :=
  let serverFilePath := (InterfaceToString (mapGet serverConfigDetail "logPath")).1
  let serverFilePattern := (InterfaceToString (mapGet serverConfigDetail "filePattern")).1
  let serverIncludeEnv := InterfaceToJSONString (mapGet serverConfigDetail "dockerIncludeEnv")
  let serverIncludeLabel := InterfaceToJSONString (mapGet serverConfigDetail "dockerIncludeLabel")
  filePath != serverFilePath ||
  filePattern != serverFilePattern ||
  includeEnv != serverIncludeEnv ||
  includeLabel != serverIncludeLabel

/-- The `config.SimpleConfig` update branch of `updateConfigInner` (lines 493-553 of
the source): the narrow file-field patch when both input types are `"file"` and the
declared path and pattern are non-empty, followed by the type-change force update.
The Go type assertion `serverConfig.InputDetail.(map[string]interface{})` always
succeeds under the mapping model of `LogConfig.InputDetail`.  Returns the final `err`
value and the emitted calls; the wrapper state is untouched by this branch. -/
def simpleConfigUpdate (env : ClientEnv) (flags : EnvFlags) (config : AliyunLogConfigSpec) (project : String) (aliyunLogConfig serverConfig : LogConfig) : Option SlsError × List RemoteCall :=
  let configDetail := serverConfig.InputDetail
  let step1 : Option SlsError × List RemoteCall :=
    if config.LogtailConfig.InputType == "file" && serverConfig.InputType == "file" then
      let filePattern := (InterfaceToString (mapGet config.LogtailConfig.LogtailConfigMap "filePattern")).1
      let logPath := (InterfaceToString (mapGet config.LogtailConfig.LogtailConfigMap "logPath")).1
      let includeEnv := InterfaceToJSONString (mapGet config.LogtailConfig.LogtailConfigMap "dockerIncludeEnv")
      let includeLabel := InterfaceToJSONString (mapGet config.LogtailConfig.LogtailConfigMap "dockerIncludeLabel")
      if 0 < filePattern.length && 0 < logPath.length then
        if checkFileConfigChanged logPath filePattern includeEnv includeLabel configDetail then
          let d1 := mapSet configDetail "logPath" (JValue.str logPath)
          let d2 := mapSet d1 "filePattern" (JValue.str filePattern)
          let d3 := mapSet d2 "dockerIncludeEnv"
            ((mapGet config.LogtailConfig.LogtailConfigMap "dockerIncludeEnv").getD JValue.null)
          let d4 :=
            if containsKey d3 "dockerIncludeLabel" then
              match mapGet config.LogtailConfig.LogtailConfigMap "dockerIncludeLabel" with
              | some v => mapSet d3 "dockerIncludeLabel" v
              | none => d3
            else d3
          let updated := { serverConfig with InputDetail := d4 }
          let r := retryLoop (env.updateConfig project updated) none flags.LogOperationMaxRetryTimes
          (r.1, List.replicate r.2 (RemoteCall.updateConfig project updated))
        else (none, [])
      else (none, [])
    else (none, [])
  if config.LogtailConfig.InputType != serverConfig.InputType then
    let r2 := retryLoop (env.updateConfig project aliyunLogConfig) step1.1 flags.LogOperationMaxRetryTimes
    (r2.1, step1.2 ++ List.replicate r2.2 (RemoteCall.updateConfig project aliyunLogConfig))
  else (step1.1, step1.2)

/-- The machine-group phase of `updateConfigInner` (lines 576-616 of the source): the
result of `makesureMachineGroupExist` is assigned to the blank identifier and so
discarded; when the config pre-existed (`okExisted`), the bound machine groups are
fetched and membership of the target group is computed into `ok`, but that value is
never read afterwards; `ApplyConfigToMachineGroup` is then invoked unconditionally. -/
def machineGroupPhase (env : ClientEnv) (flags : EnvFlags) (o : OperationWrapper) (now : Int) (config : AliyunLogConfigSpec) (project : String) (okExisted : Bool) : Except String Unit × OperationWrapper × List RemoteCall :=
  let machineGroup := effectiveMachineGroup flags config
  let stepMg := makesureMachineGroupExist env flags o project machineGroup
  let cMg := stepMg.2.2
  let member : Option String × List RemoteCall :=
    if okExisted then
      let r := listLoop (env.getAppliedMachineGroups project config.LogtailConfig.ConfigName) flags.LogOperationMaxRetryTimes
      let cG := List.replicate r.2.2 (RemoteCall.getAppliedMachineGroups project config.LogtailConfig.ConfigName)
      match r.2.1 with
      | some e => (some ("GetAppliedMachineGroups error, config : " ++ config.LogtailConfig.ConfigName ++ ", error : " ++ e.message), cG)
      | none =>
        let _okUnused := r.1.contains machineGroup
        (none, cG)
    else (none, [])
  match member with
  | (some msg, cG) => (Except.error msg, o, cMg ++ cG)
  | (none, cG) =>
    let rA := retryLoop (env.applyConfigToMachineGroup project config.LogtailConfig.ConfigName machineGroup) none flags.LogOperationMaxRetryTimes
    let cA := List.replicate rA.2 (RemoteCall.applyConfigToMachineGroup project config.LogtailConfig.ConfigName machineGroup)
    match rA.1 with
    | some e =>
      (Except.error ("ApplyConfigToMachineGroup error, config : " ++ config.LogtailConfig.ConfigName ++ ", machine group : " ++ machineGroup ++ ", error : " ++ e.message), o, cMg ++ cG ++ cA)
    | none =>
      (Except.ok (), addConfigCache o now project config.LogtailConfig.ConfigName, cMg ++ cG ++ cA)

/-- Full transcription of `updateConfigInner`: logstore provisioning, fetching the
remote config, the create-or-update decision, and the machine-group phase.  Returns
the Go error result, the updated wrapper state, and all client calls performed. -/
def updateConfigInner (env : ClientEnv) (flags : EnvFlags) (o : OperationWrapper) (now : Int) (config : AliyunLogConfigSpec) : Except String Unit × OperationWrapper × List RemoteCall :=
  let project := effectiveProject o config
  let logstore := config.Logstore
  let shardCount : Int := (config.ShardCount).getD 0
  let lifeCycle : Int := (config.LifeCycle).getD 0
  match makesureLogstoreExist env flags o now project logstore shardCount lifeCycle config.ProductCode config.ProductLang with
  | (some e, o1, c1) =>
    (Except.error ("Create logconfig error when update config, config : " ++ config.LogtailConfig.ConfigName ++ ", error : " ++ e.message), o1, c1)
  | (none, o1, c1) =>
    let aliyunLogConfig := buildAliyunLogConfig project logstore config
    let rGet := getConfigLoop (env.getConfig project config.LogtailConfig.ConfigName) flags.LogOperationMaxRetryTimes
    let okGet := rGet.1
    let cGet := List.replicate rGet.2.2.2 (RemoteCall.getConfig project config.LogtailConfig.ConfigName)
    let stepCU : Option SlsError × List RemoteCall :=
      match okGet, rGet.2.1 with
      | true, some serverConfig =>
        if config.SimpleConfig then
          simpleConfigUpdate env flags config project aliyunLogConfig serverConfig
        else (none, [])
      | _, _ =>
        let r := retryLoop (env.createConfig project aliyunLogConfig) rGet.2.2.1 flags.LogOperationMaxRetryTimes
        (r.1, List.replicate r.2 (RemoteCall.createConfig project config.LogtailConfig.ConfigName))
    match stepCU with
    | (some e, cCU) =>
      (Except.error ("UpdateConfig error, config : " ++ config.LogtailConfig.ConfigName ++ ", error : " ++ e.message), o1, c1 ++ cGet ++ cCU)
    | (none, cCU) =>
      let rMg := machineGroupPhase env flags o1 now config project okGet
      (rMg.1, rMg.2.1, c1 ++ cGet ++ cCU ++ rMg.2.2)

/-- Flag fixture: three retry attempts, a 600-second cache TTL, default group name. -/
def flags3 : EnvFlags :=
  { LogOperationMaxRetryTimes := 3
    LogResourceCacheExpireSec := 600
    DefaultLogMachineGroup := "default-group" }

/-- Remote behaviour fixture in which every operation succeeds on its first attempt and
the config does not exist remotely yet. -/
def baseEnv : ClientEnv :=
  { checkProjectExist := fun _ _ => Except.ok true
    createProject := fun _ _ => none
    checkLogstoreExist := fun _ _ _ => Except.ok true
    createLogStore := fun _ _ _ _ _ => none
    createIndex := fun _ _ _ => none
    createProductLogstore := fun _ _ _ _ => none
    getConfig := fun _ _ _ => Except.error { code := "ConfigNotExist", message := "config not exist" }
    createConfig := fun _ _ _ => none
    updateConfig := fun _ _ _ => none
    checkMachineGroupExist := fun _ _ _ => Except.ok true
    createMachineGroup := fun _ _ _ => none
    getAppliedMachineGroups := fun _ _ _ => Except.ok []
    applyConfigToMachineGroup := fun _ _ _ _ => none }

/-- Desired-spec fixture: a simple-mode file config `cfg` shipping `/var/log` logs of
pattern `*.log` to logstore `ls`, bound to machine group `mg`. -/
def specFile : AliyunLogConfigSpec :=
  { Project := ""
    Logstore := "ls"
    ShardCount := none
    LifeCycle := none
    ProductCode := ""
    ProductLang := ""
    LogtailConfig :=
      { ConfigName := "cfg"
        InputType := "file"
        LogtailConfigMap := [("logPath", JValue.str "/var/log"), ("filePattern", JValue.str "*.log")] }
    SimpleConfig := true
    MachineGroups := ["mg"] }

/-- Remote snapshot fixture matching `specFile` field-for-field (an unchanged config). -/
def serverFileConfig : LogConfig :=
  { Name := "cfg"
    InputType := "file"
    InputDetail := [("logPath", JValue.str "/var/log"), ("filePattern", JValue.str "*.log")]
    OutputType := "LogService"
    OutputProjectName := "p"
    OutputLogStoreName := "ls" }

/-- Wrapper-state fixture whose logstore cache already holds a fresh entry for
`p@@ls` (a second reconciliation pass within the cache TTL). -/
def cachedWrapper : OperationWrapper :=
  { project := "p"
    logstoreCacheMap := [("p@@ls", 0)]
    configCacheMap := [] }

/-- A retry loop whose first attempt succeeds performs exactly one call. -/
theorem retryLoop_first_ok (op : Nat → Option SlsError) (init : Option SlsError) (max : Nat)
    (h : op 0 = none) (hmax : 1 ≤ max) : retryLoop op init max = (none, 1) := by
  cases max with
  | zero => omega
  | succ n => simp [retryLoop, retryLoopAux, h]

/-- Single-step unfolding of `retryLoopAux`. -/
theorem retryLoopAux_succ (op : Nat → Option SlsError) (prev : Option SlsError) (i rem : Nat) :
    retryLoopAux op prev i (rem + 1) =
      match op i with
      | none => (none, i + 1)
      | some e => retryLoopAux op (some e) (i + 1) rem := rfl

/-- Auxiliary form: a retry loop whose attempts all fail runs its full budget and ends
with the error of the last attempt. -/
theorem retryLoopAux_all_fail (op : Nat → Option SlsError) (e : Nat → SlsError) :
    ∀ rem i prev, 1 ≤ rem → (∀ j, j < i + rem → op j = some (e j)) →
      retryLoopAux op prev i rem = (some (e (i + rem - 1)), i + rem) := by
  intro rem
  induction rem with
  | zero => omega
  | succ n ih =>
    intro i prev _ h
    have hi : op i = some (e i) := h i (by omega)
    cases n with
    | zero =>
      simp [retryLoopAux_succ, retryLoopAux, hi]
    | succ m =>
      have hrec := ih (i + 1) (some (e i)) (by omega) (by intro j hj; exact h j (by omega))
      rw [retryLoopAux_succ, hi]
      show retryLoopAux op (some (e i)) (i + 1) (m + 1) = _
      rw [hrec]
      have h1 : i + 1 + (m + 1) - 1 = i + (m + 1 + 1) - 1 := by omega
      have h2 : i + 1 + (m + 1) = i + (m + 1 + 1) := by omega
      rw [h1, h2]

/-- A retried operation that fails on every attempt is invoked exactly `max` times and the
last error is the loop's final error value. -/
theorem retryLoop_all_fail (op : Nat → Option SlsError) (e : Nat → SlsError) (init : Option SlsError)
    (max : Nat) (hmax : 1 ≤ max) (h : ∀ j, j < max → op j = some (e j)) :
    retryLoop op init max = (some (e (max - 1)), max) := by
  have := retryLoopAux_all_fail op e max 0 init hmax (by simpa using h)
  simpa using this

/-- Auxiliary form: a retry loop that fails `k` times then succeeds stops after `k + 1`
calls with no error. -/
theorem retryLoopAux_fail_then_ok (op : Nat → Option SlsError) (e : Nat → SlsError) :
    ∀ k rem i prev, k < rem → (∀ j, j < k → op (i + j) = some (e (i + j))) →
      op (i + k) = none →
      retryLoopAux op prev i rem = (none, i + k + 1) := by
  intro k
  induction k with
  | zero =>
    intro rem i prev hk _ hok
    cases rem with
    | zero => omega
    | succ n => simp only [Nat.add_zero] at hok; simp [retryLoopAux, hok]
  | succ m ih =>
    intro rem i prev hk h hok
    cases rem with
    | zero => omega
    | succ n =>
      have hi : op i = some (e i) := by simpa using h 0 (by omega)
      have hrec := ih n (i + 1) (some (e i)) (by omega)
        (by intro j hj; have := h (j + 1) (by omega); simpa [Nat.add_assoc, Nat.add_comm 1 j] using this)
        (by have heq : i + 1 + m = i + (m + 1) := by omega
            rw [heq]; exact hok)
      rw [retryLoopAux_succ, hi]
      show retryLoopAux op (some (e i)) (i + 1) n = _
      rw [hrec]
      have h2 : i + 1 + m + 1 = i + (m + 1) + 1 := by omega
      rw [h2]

/-- A retried operation that fails `k` times then succeeds returns success after exactly
`k + 1` calls. -/
theorem retryLoop_fail_then_ok (op : Nat → Option SlsError) (e : Nat → SlsError) (init : Option SlsError)
    (max k : Nat) (hk : k < max) (h : ∀ j, j < k → op j = some (e j)) (hok : op k = none) :
    retryLoop op init max = (none, k + 1) := by
  have := retryLoopAux_fail_then_ok op e k max 0 init hk (by simpa using h) (by simpa using hok)
  simpa using this

/-- Single-step unfolding of `checkLoopAux`. -/
theorem checkLoopAux_succ (op : Nat → Except SlsError Bool) (prevOk : Bool) (prevErr : Option SlsError) (i rem : Nat) :
    checkLoopAux op prevOk prevErr i (rem + 1) =
      match op i with
      | .ok b => (b, none, i + 1)
      | .error e => checkLoopAux op false (some e) (i + 1) rem := rfl

/-- A check loop whose first attempt answers without error stops after one call. -/
theorem checkLoop_first_ok (op : Nat → Except SlsError Bool) (max : Nat) (b : Bool)
    (h : op 0 = Except.ok b) (hmax : 1 ≤ max) : checkLoop op max = (b, none, 1) := by
  cases max with
  | zero => omega
  | succ n => rw [checkLoop, checkLoopAux_succ, h]

/-- Auxiliary form: a check loop whose attempts all error exhausts its budget with the
flag `false` and the last error. -/
theorem checkLoopAux_all_fail (op : Nat → Except SlsError Bool) (e : Nat → SlsError) :
    ∀ rem i prevOk prevErr, 1 ≤ rem → (∀ j, j < i + rem → op j = Except.error (e j)) →
      checkLoopAux op prevOk prevErr i rem = (false, some (e (i + rem - 1)), i + rem) := by
  intro rem
  induction rem with
  | zero => omega
  | succ n ih =>
    intro i prevOk prevErr _ h
    have hi : op i = Except.error (e i) := h i (by omega)
    cases n with
    | zero => simp [checkLoopAux_succ, checkLoopAux, hi]
    | succ m =>
      have hrec := ih (i + 1) false (some (e i)) (by omega) (by intro j hj; exact h j (by omega))
      rw [checkLoopAux_succ, hi]
      show checkLoopAux op false (some (e i)) (i + 1) (m + 1) = _
      rw [hrec]
      have h1 : i + 1 + (m + 1) - 1 = i + (m + 1 + 1) - 1 := by omega
      have h2 : i + 1 + (m + 1) = i + (m + 1 + 1) := by omega
      rw [h1, h2]

/-- A check loop whose attempts all error performs exactly `max` calls and yields
`false` with the last error. -/
theorem checkLoop_all_fail (op : Nat → Except SlsError Bool) (e : Nat → SlsError) (max : Nat)
    (hmax : 1 ≤ max) (h : ∀ j, j < max → op j = Except.error (e j)) :
    checkLoop op max = (false, some (e (max - 1)), max) := by
  have := checkLoopAux_all_fail op e max 0 false none hmax (by simpa using h)
  simpa using this

/-- Single-step unfolding of `getConfigLoopAux`. -/
theorem getConfigLoopAux_succ (op : Nat → Except SlsError LogConfig) (prevCfg : Option LogConfig) (prevErr : Option SlsError) (i rem : Nat) :
    getConfigLoopAux op prevCfg prevErr i (rem + 1) =
      match op i with
      | .ok cfg => (true, some cfg, none, i + 1)
      | .error e =>
        if e.code == "ConfigNotExist" then (false, none, some e, i + 1)
        else getConfigLoopAux op none (some e) (i + 1) rem := rfl

/-- A fetch loop whose first attempt succeeds stops after one call with the config. -/
theorem getConfigLoop_first_ok (op : Nat → Except SlsError LogConfig) (max : Nat) (cfg : LogConfig)
    (h : op 0 = Except.ok cfg) (hmax : 1 ≤ max) :
    getConfigLoop op max = (true, some cfg, none, 1) := by
  cases max with
  | zero => omega
  | succ n => rw [getConfigLoop, getConfigLoopAux_succ, h]

/-- Step of the fetch loop on a non-`ConfigNotExist` error: the loop retries. -/
theorem getConfigLoopAux_step_other (op : Nat → Except SlsError LogConfig)
    (prevCfg : Option LogConfig) (prevErr : Option SlsError) (i rem : Nat) (err : SlsError)
    (h : op i = Except.error err) (hc : err.code ≠ "ConfigNotExist") :
    getConfigLoopAux op prevCfg prevErr i (rem + 1) = getConfigLoopAux op none (some err) (i + 1) rem := by
  rw [getConfigLoopAux_succ, h]
  simp [hc]

/-- Step of the fetch loop on a `ConfigNotExist` error: the loop stops at once. -/
theorem getConfigLoopAux_step_notexist (op : Nat → Except SlsError LogConfig)
    (prevCfg : Option LogConfig) (prevErr : Option SlsError) (i rem : Nat) (err : SlsError)
    (h : op i = Except.error err) (hc : err.code = "ConfigNotExist") :
    getConfigLoopAux op prevCfg prevErr i (rem + 1) = (false, none, some err, i + 1) := by
  rw [getConfigLoopAux_succ, h]
  simp [hc]

/-- Auxiliary form: a `ConfigNotExist` answer after `k` other failures stops the fetch
loop at once. -/
theorem getConfigLoopAux_notexist (op : Nat → Except SlsError LogConfig) (e : Nat → SlsError) :
    ∀ k rem i prevCfg prevErr, k < rem →
      (∀ j, j < k → op (i + j) = Except.error (e (i + j)) ∧ (e (i + j)).code ≠ "ConfigNotExist") →
      op (i + k) = Except.error (e (i + k)) → (e (i + k)).code = "ConfigNotExist" →
      getConfigLoopAux op prevCfg prevErr i rem = (false, none, some (e (i + k)), i + k + 1) := by
  intro k
  induction k with
  | zero =>
    intro rem i prevCfg prevErr hk _ hop hcode
    cases rem with
    | zero => omega
    | succ n =>
      simp only [Nat.add_zero] at hop hcode
      rw [getConfigLoopAux_step_notexist op prevCfg prevErr i n (e i) hop hcode]
      simp
  | succ m ih =>
    intro rem i prevCfg prevErr hk h hop hcode
    cases rem with
    | zero => omega
    | succ n =>
      obtain ⟨hi, hcodei⟩ := by simpa using h 0 (by omega)
      have hrec := ih n (i + 1) none (some (e i)) (by omega)
        (by intro j hj
            have := h (j + 1) (by omega)
            simpa [Nat.add_assoc, Nat.add_comm 1 j] using this)
        (by have heq : i + 1 + m = i + (m + 1) := by omega
            rw [heq]; exact hop)
        (by have heq : i + 1 + m = i + (m + 1) := by omega
            rw [heq]; exact hcode)
      rw [getConfigLoopAux_step_other op prevCfg prevErr i n (e i) hi hcodei, hrec]
      have h1 : i + 1 + m = i + (m + 1) := by omega
      rw [h1]

/-- A `ConfigNotExist` answer on attempt `k` (after `k` non-`ConfigNotExist` failures)
stops the fetch loop immediately: `k + 1` calls, `ok = false`. -/
theorem getConfigLoop_notexist (op : Nat → Except SlsError LogConfig) (e : Nat → SlsError)
    (max k : Nat) (hk : k < max)
    (h : ∀ j, j < k → op j = Except.error (e j) ∧ (e j).code ≠ "ConfigNotExist")
    (hop : op k = Except.error (e k)) (hcode : (e k).code = "ConfigNotExist") :
    getConfigLoop op max = (false, none, some (e k), k + 1) := by
  have := getConfigLoopAux_notexist op e k max 0 none none hk (by simpa using h)
    (by simpa using hop) (by simpa using hcode)
  simpa using this

/-- Auxiliary form: a fetch loop whose attempts all fail with non-`ConfigNotExist`
errors exhausts its budget with `ok = false` and a nil config. -/
theorem getConfigLoopAux_exhaust (op : Nat → Except SlsError LogConfig) (e : Nat → SlsError) :
    ∀ rem i prevErr, 1 ≤ rem →
      (∀ j, j < i + rem → op j = Except.error (e j) ∧ (e j).code ≠ "ConfigNotExist") →
      getConfigLoopAux op none prevErr i rem = (false, none, some (e (i + rem - 1)), i + rem) := by
  intro rem
  induction rem with
  | zero => omega
  | succ n ih =>
    intro i prevErr _ h
    obtain ⟨hi, hcodei⟩ := h i (by omega)
    cases n with
    | zero =>
      rw [getConfigLoopAux_step_other op none prevErr i 0 (e i) hi hcodei]
      simp [getConfigLoopAux]
    | succ m =>
      have hrec := ih (i + 1) (some (e i)) (by omega) (by intro j hj; exact h j (by omega))
      rw [getConfigLoopAux_step_other op none prevErr i (m + 1) (e i) hi hcodei, hrec]
      have h1 : i + 1 + (m + 1) - 1 = i + (m + 1 + 1) - 1 := by omega
      have h2 : i + 1 + (m + 1) = i + (m + 1 + 1) := by omega
      rw [h1, h2]

/-- A fetch loop whose attempts all fail with non-`ConfigNotExist` errors performs
exactly `max` calls and ends with `ok = false`, no config, and the last error. -/
theorem getConfigLoop_exhaust (op : Nat → Except SlsError LogConfig) (e : Nat → SlsError)
    (max : Nat) (hmax : 1 ≤ max)
    (h : ∀ j, j < max → op j = Except.error (e j) ∧ (e j).code ≠ "ConfigNotExist") :
    getConfigLoop op max = (false, none, some (e (max - 1)), max) := by
  have := getConfigLoopAux_exhaust op e max 0 none hmax (by simpa using h)
  simpa using this

/-- Single-step unfolding of `listLoopAux`. -/
theorem listLoopAux_succ (op : Nat → Except SlsError (List String)) (prev : List String) (prevErr : Option SlsError) (i rem : Nat) :
    listLoopAux op prev prevErr i (rem + 1) =
      match op i with
      | .ok xs => (xs, none, i + 1)
      | .error e => listLoopAux op [] (some e) (i + 1) rem := rfl

/-- A list-fetch loop whose first attempt succeeds stops after one call. -/
theorem listLoop_first_ok (op : Nat → Except SlsError (List String)) (max : Nat) (xs : List String)
    (h : op 0 = Except.ok xs) (hmax : 1 ≤ max) : listLoop op max = (xs, none, 1) := by
  cases max with
  | zero => omega
  | succ n => rw [listLoop, listLoopAux_succ, h]

/-- A cache hit makes `makesureLogstoreExist` return immediately with no remote call. -/
theorem makesureLogstoreExist_cached (env : ClientEnv) (flags : EnvFlags) (o : OperationWrapper)
    (now : Int) (project logstore : String) (shardCount lifeCycle : Int) (product lang : String)
    (h : logstoreCacheExists flags o now project logstore = true) :
    makesureLogstoreExist env flags o now project logstore shardCount lifeCycle product lang = (none, o, []) := by
  simp [makesureLogstoreExist, h]

/-- When the machine group already exists (confirmed on the first check), the function
performs exactly one read call and succeeds. -/
theorem makesureMachineGroupExist_exists (env : ClientEnv) (flags : EnvFlags) (o : OperationWrapper)
    (project machineGroup : String)
    (h : env.checkMachineGroupExist project machineGroup 0 = Except.ok true)
    (hmax : 1 ≤ flags.LogOperationMaxRetryTimes) :
    makesureMachineGroupExist env flags o project machineGroup =
      (none, o, [RemoteCall.checkMachineGroupExist project machineGroup]) := by
  simp only [makesureMachineGroupExist]
  rw [checkLoop_first_ok _ _ true h hmax]
  simp

/-- When the group is absent (clean first check) and every create attempt fails, the
create call is issued exactly `max` times and the raw last error is returned. -/
theorem makesureMachineGroupExist_create_all_fail (env : ClientEnv) (flags : EnvFlags)
    (o : OperationWrapper) (project machineGroup : String) (e : Nat → SlsError)
    (hchk : env.checkMachineGroupExist project machineGroup 0 = Except.ok false)
    (hmax : 1 ≤ flags.LogOperationMaxRetryTimes)
    (hfail : ∀ j, j < flags.LogOperationMaxRetryTimes → env.createMachineGroup project machineGroup j = some (e j)) :
    makesureMachineGroupExist env flags o project machineGroup =
      (some (e (flags.LogOperationMaxRetryTimes - 1)), o,
        RemoteCall.checkMachineGroupExist project machineGroup ::
          List.replicate flags.LogOperationMaxRetryTimes (RemoteCall.createMachineGroup project machineGroup)) := by
  simp only [makesureMachineGroupExist]
  rw [checkLoop_first_ok _ _ false hchk hmax]
  rw [retryLoop_all_fail _ e none flags.LogOperationMaxRetryTimes hmax hfail]
  simp

/-- When the group is absent and creation fails `k` times then succeeds, the create
call is issued exactly `k + 1` times and no error is returned. -/
theorem makesureMachineGroupExist_create_fail_then_ok (env : ClientEnv) (flags : EnvFlags)
    (o : OperationWrapper) (project machineGroup : String) (e : Nat → SlsError) (k : Nat)
    (hchk : env.checkMachineGroupExist project machineGroup 0 = Except.ok false)
    (hk : k < flags.LogOperationMaxRetryTimes)
    (hfail : ∀ j, j < k → env.createMachineGroup project machineGroup j = some (e j))
    (hok : env.createMachineGroup project machineGroup k = none) :
    makesureMachineGroupExist env flags o project machineGroup =
      (none, o,
        RemoteCall.checkMachineGroupExist project machineGroup ::
          List.replicate (k + 1) (RemoteCall.createMachineGroup project machineGroup)) := by
  simp only [makesureMachineGroupExist]
  rw [checkLoop_first_ok _ _ false hchk (by omega)]
  rw [retryLoop_fail_then_ok _ e none flags.LogOperationMaxRetryTimes k hk hfail hok]
  simp

/-- When both the existence check and the creation fail on every attempt, both calls are
issued exactly `max` times and the final creation error is returned raw. -/
theorem makesureMachineGroupExist_all_fail (env : ClientEnv) (flags : EnvFlags)
    (o : OperationWrapper) (project machineGroup : String) (ce me : Nat → SlsError)
    (hchk : ∀ j, j < flags.LogOperationMaxRetryTimes → env.checkMachineGroupExist project machineGroup j = Except.error (ce j))
    (hmax : 1 ≤ flags.LogOperationMaxRetryTimes)
    (hfail : ∀ j, j < flags.LogOperationMaxRetryTimes → env.createMachineGroup project machineGroup j = some (me j)) :
    makesureMachineGroupExist env flags o project machineGroup =
      (some (me (flags.LogOperationMaxRetryTimes - 1)), o,
        List.replicate flags.LogOperationMaxRetryTimes (RemoteCall.checkMachineGroupExist project machineGroup) ++
          List.replicate flags.LogOperationMaxRetryTimes (RemoteCall.createMachineGroup project machineGroup)) := by
  simp only [makesureMachineGroupExist]
  rw [checkLoop_all_fail _ ce flags.LogOperationMaxRetryTimes hmax hchk]
  rw [retryLoop_all_fail _ me _ flags.LogOperationMaxRetryTimes hmax hfail]
  simp

/-- Machine-group phase on the update path (config pre-existed): regardless of whether
the target group is already bound, the bind call is still issued; with clean first
attempts the phase performs the ensure calls, one bound-groups read and exactly one
bind call, then records the config cache. -/
theorem machineGroupPhase_existing (env : ClientEnv) (flags : EnvFlags) (o : OperationWrapper)
    (now : Int) (config : AliyunLogConfigSpec) (project : String) (gs : List String)
    (hg : env.getAppliedMachineGroups project config.LogtailConfig.ConfigName 0 = Except.ok gs)
    (ha : env.applyConfigToMachineGroup project config.LogtailConfig.ConfigName (effectiveMachineGroup flags config) 0 = none)
    (hmax : 1 ≤ flags.LogOperationMaxRetryTimes) :
    machineGroupPhase env flags o now config project true =
      (Except.ok (), addConfigCache o now project config.LogtailConfig.ConfigName,
        (makesureMachineGroupExist env flags o project (effectiveMachineGroup flags config)).2.2 ++
          [RemoteCall.getAppliedMachineGroups project config.LogtailConfig.ConfigName,
           RemoteCall.applyConfigToMachineGroup project config.LogtailConfig.ConfigName (effectiveMachineGroup flags config)]) := by
  simp only [machineGroupPhase]
  rw [listLoop_first_ok _ _ gs hg hmax]
  rw [retryLoop_first_ok _ _ _ ha hmax]
  simp

/-- Machine-group phase on the create path (config was absent): no bound-groups read is
performed and, with clean first attempts, exactly one bind call is issued. -/
theorem machineGroupPhase_new (env : ClientEnv) (flags : EnvFlags) (o : OperationWrapper)
    (now : Int) (config : AliyunLogConfigSpec) (project : String)
    (ha : env.applyConfigToMachineGroup project config.LogtailConfig.ConfigName (effectiveMachineGroup flags config) 0 = none)
    (hmax : 1 ≤ flags.LogOperationMaxRetryTimes) :
    machineGroupPhase env flags o now config project false =
      (Except.ok (), addConfigCache o now project config.LogtailConfig.ConfigName,
        (makesureMachineGroupExist env flags o project (effectiveMachineGroup flags config)).2.2 ++
          [RemoteCall.applyConfigToMachineGroup project config.LogtailConfig.ConfigName (effectiveMachineGroup flags config)]) := by
  simp only [machineGroupPhase]
  rw [retryLoop_first_ok _ _ _ ha hmax]
  simp

/-- Declared values equal to the remote ones make the drift test report no change. -/
theorem checkFileConfigChanged_false_of_eq (filePath filePattern includeEnv includeLabel : String)
    (detail : List (String × JValue))
    (h1 : filePath = (InterfaceToString (mapGet detail "logPath")).1)
    (h2 : filePattern = (InterfaceToString (mapGet detail "filePattern")).1)
    (h3 : includeEnv = InterfaceToJSONString (mapGet detail "dockerIncludeEnv"))
    (h4 : includeLabel = InterfaceToJSONString (mapGet detail "dockerIncludeLabel")) :
    checkFileConfigChanged filePath filePattern includeEnv includeLabel detail = false := by
  simp [checkFileConfigChanged, h1, h2, h3, h4]

/-- When both input types are the file type and the drift test reports no change, the
simple-config branch performs no call and raises no error. -/
theorem simpleConfigUpdate_unchanged (env : ClientEnv) (flags : EnvFlags)
    (config : AliyunLogConfigSpec) (project : String) (aliyunLogConfig serverConfig : LogConfig)
    (ht1 : config.LogtailConfig.InputType = "file")
    (ht2 : serverConfig.InputType = "file")
    (hnc : checkFileConfigChanged
        ((InterfaceToString (mapGet config.LogtailConfig.LogtailConfigMap "logPath")).1)
        ((InterfaceToString (mapGet config.LogtailConfig.LogtailConfigMap "filePattern")).1)
        (InterfaceToJSONString (mapGet config.LogtailConfig.LogtailConfigMap "dockerIncludeEnv"))
        (InterfaceToJSONString (mapGet config.LogtailConfig.LogtailConfigMap "dockerIncludeLabel"))
        serverConfig.InputDetail = false) :
    simpleConfigUpdate env flags config project aliyunLogConfig serverConfig = (none, []) := by
  simp [simpleConfigUpdate, ht1, ht2, hnc]

/-- When both input types are the file type but the declared path or pattern is missing
or empty, the simple-config branch performs no call and raises no error, whatever the
remote detail holds. -/
theorem simpleConfigUpdate_empty_gate (env : ClientEnv) (flags : EnvFlags)
    (config : AliyunLogConfigSpec) (project : String) (aliyunLogConfig serverConfig : LogConfig)
    (ht1 : config.LogtailConfig.InputType = "file")
    (ht2 : serverConfig.InputType = "file")
    (hemp : (InterfaceToString (mapGet config.LogtailConfig.LogtailConfigMap "logPath")).1 = "" ∨
            (InterfaceToString (mapGet config.LogtailConfig.LogtailConfigMap "filePattern")).1 = "") :
    simpleConfigUpdate env flags config project aliyunLogConfig serverConfig = (none, []) := by
  rcases hemp with hemp | hemp <;> simp [simpleConfigUpdate, ht1, ht2, hemp]

/-- When the declared input type differs from the remote one, a full-object update with
the locally built config is issued (exactly once when the first attempt succeeds). -/
theorem simpleConfigUpdate_type_change (env : ClientEnv) (flags : EnvFlags)
    (config : AliyunLogConfigSpec) (project : String) (aliyunLogConfig serverConfig : LogConfig)
    (hne : config.LogtailConfig.InputType ≠ serverConfig.InputType)
    (hupd : env.updateConfig project aliyunLogConfig 0 = none)
    (hmax : 1 ≤ flags.LogOperationMaxRetryTimes) :
    simpleConfigUpdate env flags config project aliyunLogConfig serverConfig =
      (none, [RemoteCall.updateConfig project aliyunLogConfig]) := by
  have hgate : (config.LogtailConfig.InputType == "file" && serverConfig.InputType == "file") = false := by
    by_cases hc : config.LogtailConfig.InputType = "file"
    · by_cases hs : serverConfig.InputType = "file"
      · exact absurd (hc.trans hs.symm) hne
      · simp [hs]
    · simp [hc]
  have hbne : (config.LogtailConfig.InputType != serverConfig.InputType) = true := by
    simpa [bne_iff_ne] using hne
  simp only [simpleConfigUpdate, hgate, hbne]
  rw [retryLoop_first_ok _ _ _ hupd hmax]
  simp

/-- Reading back the key just written returns the new value. -/
theorem mapGet_mapSet_self {α : Type} (m : List (String × α)) (k : String) (v : α) :
    mapGet (mapSet m k v) k = some v := by
  induction m with
  | nil => simp [mapGet, mapSet]
  | cons kv rest ih =>
    obtain ⟨a, b⟩ := kv
    by_cases ha : a = k
    · simp [mapGet, mapSet, ha]
    · simp [mapGet, mapSet, ha, ih]

/-- Writing one key leaves every other key unchanged. -/
theorem mapGet_mapSet_ne {α : Type} (m : List (String × α)) (k k' : String) (v : α)
    (h : k' ≠ k) : mapGet (mapSet m k v) k' = mapGet m k' := by
  have hkk : ¬ k = k' := fun hh => h hh.symm
  induction m with
  | nil => simp [mapGet, mapSet, hkk]
  | cons kv rest ih =>
    obtain ⟨a, b⟩ := kv
    by_cases ha : a = k
    · subst ha
      simp [mapGet, mapSet, hkk]
    · simp [mapGet, mapSet, ha, ih]

/-- C9: the existence-cache query answers `true` exactly when a `"project@@resource"`
entry is present and strictly younger than the TTL; recording a resource upserts the
current timestamp for that key and touches no other key and no other map; an expired
entry makes the query answer `false` while the entry itself stays in the map. -/
theorem cache_contract (flags : EnvFlags) (o : OperationWrapper) (now t : Int)
    (project resource k : String) :
    (logstoreCacheExists flags o now project resource = true ↔
      ∃ t0, mapGet o.logstoreCacheMap (project ++ "@@" ++ resource) = some t0 ∧
        now - t0 < flags.LogResourceCacheExpireSec) ∧
    (configCacheExists flags o now project resource = true ↔
      ∃ t0, mapGet o.configCacheMap (project ++ "@@" ++ resource) = some t0 ∧
        now - t0 < flags.LogResourceCacheExpireSec) ∧
    (mapGet (addLogstoreCache o now project resource).logstoreCacheMap (project ++ "@@" ++ resource) = some now) ∧
    (mapGet (addConfigCache o now project resource).configCacheMap (project ++ "@@" ++ resource) = some now) ∧
    ((addLogstoreCache o now project resource).configCacheMap = o.configCacheMap) ∧
    ((addConfigCache o now project resource).logstoreCacheMap = o.logstoreCacheMap) ∧
    (k ≠ project ++ "@@" ++ resource →
      mapGet (addLogstoreCache o now project resource).logstoreCacheMap k = mapGet o.logstoreCacheMap k) ∧
    (k ≠ project ++ "@@" ++ resource →
      mapGet (addConfigCache o now project resource).configCacheMap k = mapGet o.configCacheMap k) ∧
    (mapGet o.logstoreCacheMap (project ++ "@@" ++ resource) = some t →
      ¬ now - t < flags.LogResourceCacheExpireSec →
      logstoreCacheExists flags o now project resource = false ∧
      mapGet o.logstoreCacheMap (project ++ "@@" ++ resource) = some t) := by
  refine ⟨?_, ?_, ?_, ?_, rfl, rfl, ?_, ?_, ?_⟩
  · unfold logstoreCacheExists
    cases hm : mapGet o.logstoreCacheMap (project ++ "@@" ++ resource) with
    | none => simp
    | some t0 => simp [hm]
  · unfold configCacheExists
    cases hm : mapGet o.configCacheMap (project ++ "@@" ++ resource) with
    | none => simp
    | some t0 => simp [hm]
  · exact mapGet_mapSet_self _ _ _
  · exact mapGet_mapSet_self _ _ _
  · intro hk; exact mapGet_mapSet_ne _ _ _ _ hk
  · intro hk; exact mapGet_mapSet_ne _ _ _ _ hk
  · intro hm hexp
    refine ⟨?_, hm⟩
    unfold logstoreCacheExists
    simp [hm, hexp]

/-- Closed witness for `cache_contract`: a fresh entry is a hit, an aged entry is a
miss yet remains present, and recording refreshes the timestamp. -/
theorem cache_contract_witness :
    logstoreCacheExists flags3 cachedWrapper 700 "p" "ls" = false ∧
    mapGet cachedWrapper.logstoreCacheMap "p@@ls" = some 0 ∧
    mapGet (addLogstoreCache cachedWrapper 700 "p" "ls").logstoreCacheMap "p@@ls" = some 700 := by
  have h := cache_contract flags3 cachedWrapper 700 0 "p" "ls" "other"
  refine ⟨(h.2.2.2.2.2.2.2.2 rfl (by decide)).1, rfl, ?_⟩
  exact h.2.2.1

/-- Wrapper-state fixture with empty caches and default project `p`. -/
def plainWrapper : OperationWrapper :=
  { project := "p", logstoreCacheMap := [], configCacheMap := [] }

/-- Remote behaviour fixture in which the logstore does not exist yet. -/
def lsAbsentEnv : ClientEnv :=
  { baseEnv with checkLogstoreExist := fun _ _ _ => Except.ok false }

/-- C6: on the generic creation path, the shard count handed to `CreateLogStore` is
`logstoreShardCount shardCount` and the TTL is `logstoreTTL lifeCycle`, and these
clamp exactly as specified: non-positive shard counts become 2, values above 10 become
10, values in `[1,10]` pass unchanged; non-positive lifecycles become 180 and positive
ones pass unchanged. -/
theorem shard_ttl_clamped (env : ClientEnv) (flags : EnvFlags) (o : OperationWrapper)
    (now : Int) (logstore : String) (shardCount lifeCycle : Int) (lang : String)
    (hcache : logstoreCacheExists flags o now o.project logstore = false)
    (haudit : (strStartsWith logstore "audit-" && logstore.length == 39) = false)
    (hchk : env.checkLogstoreExist o.project logstore 0 = Except.ok false)
    (hcreate : env.createLogStore o.project logstore (logstoreTTL lifeCycle) (logstoreShardCount shardCount) 0 = none)
    (hidx : env.createIndex o.project logstore 0 = none)
    (hmax : 1 ≤ flags.LogOperationMaxRetryTimes) :
    makesureLogstoreExist env flags o now o.project logstore shardCount lifeCycle "" lang =
      (none, addLogstoreCache o now o.project logstore,
        [RemoteCall.checkLogstoreExist o.project logstore,
         RemoteCall.createLogStore o.project logstore (logstoreTTL lifeCycle) (logstoreShardCount shardCount),
         RemoteCall.createIndex o.project logstore]) ∧
    (shardCount ≤ 0 → logstoreShardCount shardCount = 2) ∧
    (10 < shardCount → logstoreShardCount shardCount = 10) ∧
    (1 ≤ shardCount → shardCount ≤ 10 → logstoreShardCount shardCount = shardCount) ∧
    (lifeCycle ≤ 0 → logstoreTTL lifeCycle = 180) ∧
    (0 < lifeCycle → logstoreTTL lifeCycle = lifeCycle) := by
  refine ⟨?_, ?_, ?_, ?_, ?_, ?_⟩
  · simp only [makesureLogstoreExist, hcache, haudit]
    rw [checkLoop_first_ok _ _ false hchk hmax]
    rw [retryLoop_first_ok _ _ _ hcreate hmax]
    rw [retryLoop_first_ok _ _ _ hidx hmax]
    simp
  · intro h; simp only [logstoreShardCount]; split_ifs <;> omega
  · intro h; simp only [logstoreShardCount]; split_ifs <;> omega
  · intro h1 h2; simp only [logstoreShardCount]; split_ifs <;> omega
  · intro h; simp only [logstoreTTL]; split_ifs <;> omega
  · intro h; simp only [logstoreTTL]; split_ifs <;> omega

/-- Closed witness for `shard_ttl_clamped`: shard count 15 and lifecycle −1 lead to a
creation call with shard count 10 and TTL 180. -/
theorem shard_ttl_clamped_witness :
    makesureLogstoreExist lsAbsentEnv flags3 plainWrapper 0 "p" "ls" 15 (-1) "" "" =
      (none, addLogstoreCache plainWrapper 0 "p" "ls",
        [RemoteCall.checkLogstoreExist "p" "ls",
         RemoteCall.createLogStore "p" "ls" 180 10,
         RemoteCall.createIndex "p" "ls"]) ∧
    logstoreShardCount 15 = 10 ∧ logstoreTTL (-1) = 180 := by
  have h := shard_ttl_clamped lsAbsentEnv flags3 plainWrapper 0 "ls" 15 (-1) ""
    rfl rfl rfl rfl rfl (by decide)
  refine ⟨?_, h.2.2.1 (by decide), h.2.2.2.2.1 (by decide)⟩
  have := h.1
  simpa using this

/-- C8: a logstore named with the audit prefix and exact length 39, with no declared
product and no cache hit, is provisioned through the managed-product path with product
`k8s-audit` and language `cn`; the only call issued is the product-creation call, so
the generic existence check and creation are never invoked. -/
theorem audit_logstore_routing (env : ClientEnv) (flags : EnvFlags) (o : OperationWrapper)
    (now : Int) (project logstore : String) (shardCount lifeCycle : Int) (lang : String)
    (hcache : logstoreCacheExists flags o now project logstore = false)
    (hpre : strStartsWith logstore "audit-" = true)
    (hlen : logstore.length = 39) :
    makesureLogstoreExist env flags o now project logstore shardCount lifeCycle "" lang =
      createProductLogstore env o now project logstore "k8s-audit" "cn" ∧
    (createProductLogstore env o now project logstore "k8s-audit" "cn").2.2 =
      [RemoteCall.createProductLogstore project logstore "k8s-audit" "cn"] := by
  constructor
  · simp [makesureLogstoreExist, hcache, hpre, hlen]
  · unfold createProductLogstore
    cases env.createProductLogstore project logstore "k8s-audit" "cn" <;> simp

/-- Closed witness for `audit_logstore_routing` at the audit name from the source
comment (length 39). -/
theorem audit_logstore_routing_witness :
    makesureLogstoreExist baseEnv flags3 plainWrapper 0 "p"
        "audit-cfc281c9c4ca548638a1aaa765d8f220d" 0 0 "" "" =
      createProductLogstore baseEnv plainWrapper 0 "p"
        "audit-cfc281c9c4ca548638a1aaa765d8f220d" "k8s-audit" "cn" ∧
    (createProductLogstore baseEnv plainWrapper 0 "p"
        "audit-cfc281c9c4ca548638a1aaa765d8f220d" "k8s-audit" "cn").2.2 =
      [RemoteCall.createProductLogstore "p" "audit-cfc281c9c4ca548638a1aaa765d8f220d" "k8s-audit" "cn"] :=
  audit_logstore_routing baseEnv flags3 plainWrapper 0 "p"
    "audit-cfc281c9c4ca548638a1aaa765d8f220d" 0 0 "" rfl rfl rfl

/-- Remote behaviour fixture for the update path: the config exists remotely and
matches `specFile`, and machine group `mg` is already bound to it. -/
def updatePathEnv : ClientEnv :=
  { baseEnv with
    getConfig := fun _ _ _ => Except.ok serverFileConfig
    getAppliedMachineGroups := fun _ _ _ => Except.ok ["mg"] }

/-- C4: with `simpleConfigMode`, both input types `"file"`, and the four compared
fields equal between the desired spec and the remote detail, the whole pass succeeds
and issues no `UpdateConfig` call. -/
theorem unchanged_file_config_no_update
    (env : ClientEnv) (flags : EnvFlags) (o : OperationWrapper) (now : Int)
    (config : AliyunLogConfigSpec) (serverConfig : LogConfig) (gs : List String)
    (hcache : logstoreCacheExists flags o now (effectiveProject o config) config.Logstore = true)
    (hsimple : config.SimpleConfig = true)
    (hget : env.getConfig (effectiveProject o config) config.LogtailConfig.ConfigName 0 = Except.ok serverConfig)
    (ht1 : config.LogtailConfig.InputType = "file")
    (ht2 : serverConfig.InputType = "file")
    (h1 : (InterfaceToString (mapGet config.LogtailConfig.LogtailConfigMap "logPath")).1 =
          (InterfaceToString (mapGet serverConfig.InputDetail "logPath")).1)
    (h2 : (InterfaceToString (mapGet config.LogtailConfig.LogtailConfigMap "filePattern")).1 =
          (InterfaceToString (mapGet serverConfig.InputDetail "filePattern")).1)
    (h3 : InterfaceToJSONString (mapGet config.LogtailConfig.LogtailConfigMap "dockerIncludeEnv") =
          InterfaceToJSONString (mapGet serverConfig.InputDetail "dockerIncludeEnv"))
    (h4 : InterfaceToJSONString (mapGet config.LogtailConfig.LogtailConfigMap "dockerIncludeLabel") =
          InterfaceToJSONString (mapGet serverConfig.InputDetail "dockerIncludeLabel"))
    (hchk : env.checkMachineGroupExist (effectiveProject o config) (effectiveMachineGroup flags config) 0 = Except.ok true)
    (hg : env.getAppliedMachineGroups (effectiveProject o config) config.LogtailConfig.ConfigName 0 = Except.ok gs)
    (ha : env.applyConfigToMachineGroup (effectiveProject o config) config.LogtailConfig.ConfigName (effectiveMachineGroup flags config) 0 = none)
    (hmax : 1 ≤ flags.LogOperationMaxRetryTimes) :
    (updateConfigInner env flags o now config).1 = Except.ok () ∧
    ((updateConfigInner env flags o now config).2.2).filter RemoteCall.isUpdateConfig = [] := by
  have hls := makesureLogstoreExist_cached env flags o now (effectiveProject o config) config.Logstore
    ((config.ShardCount).getD 0) ((config.LifeCycle).getD 0) config.ProductCode config.ProductLang hcache
  have hgc := getConfigLoop_first_ok (env.getConfig (effectiveProject o config) config.LogtailConfig.ConfigName)
    flags.LogOperationMaxRetryTimes serverConfig hget hmax
  have hsc := simpleConfigUpdate_unchanged env flags config (effectiveProject o config)
    (buildAliyunLogConfig (effectiveProject o config) config.Logstore config) serverConfig ht1 ht2
    (checkFileConfigChanged_false_of_eq _ _ _ _ _ h1 h2 h3 h4)
  have hmge := makesureMachineGroupExist_exists env flags o (effectiveProject o config)
    (effectiveMachineGroup flags config) hchk hmax
  have hmg := machineGroupPhase_existing env flags o now config (effectiveProject o config) gs hg ha hmax
  rw [hmge] at hmg
  simp only [updateConfigInner, hls, hgc, hsimple, hsc, hmg]
  simp [RemoteCall.isUpdateConfig]

/-- Closed witness for `unchanged_file_config_no_update` on the `specFile` fixture. -/
theorem unchanged_file_config_no_update_witness :
    (updateConfigInner updatePathEnv flags3 cachedWrapper 0 specFile).1 = Except.ok () ∧
    ((updateConfigInner updatePathEnv flags3 cachedWrapper 0 specFile).2.2).filter RemoteCall.isUpdateConfig = [] :=
  unchanged_file_config_no_update updatePathEnv flags3 cachedWrapper 0 specFile serverFileConfig ["mg"]
    rfl rfl rfl rfl rfl rfl rfl rfl rfl rfl rfl rfl (by decide)

/-- C1 counterexample: on a second reconciliation of the unchanged `specFile` within
the cache TTL, with the config already existing remotely and machine group `mg`
already among the bound groups, the pass still issues the
`ApplyConfigToMachineGroup` call — one mutating remote call, not zero. -/
theorem alreadyBound_bind_still_called :
    updatePathEnv.getConfig "p" "cfg" 0 = Except.ok serverFileConfig ∧
    updatePathEnv.getAppliedMachineGroups "p" "cfg" 0 = Except.ok ["mg"] ∧
    (updateConfigInner updatePathEnv flags3 cachedWrapper 0 specFile).2.2.filter RemoteCall.isMutating =
      [RemoteCall.applyConfigToMachineGroup "p" "cfg" "mg"] ∧
    ((updateConfigInner updatePathEnv flags3 cachedWrapper 0 specFile).2.2.filter RemoteCall.isMutating).length = 1 :=
  ⟨rfl, rfl, rfl, rfl⟩

/-- C1 amended: on the update path with the target group already bound and the spec
unchanged, the bind call is not skipped; the membership result is computed but unused,
so the pass succeeds and issues exactly one mutating remote call — the bind itself. -/
theorem second_pass_issues_exactly_bind_call
    (env : ClientEnv) (flags : EnvFlags) (o : OperationWrapper) (now : Int)
    (config : AliyunLogConfigSpec) (serverConfig : LogConfig) (gs : List String)
    (hcache : logstoreCacheExists flags o now (effectiveProject o config) config.Logstore = true)
    (hsimple : config.SimpleConfig = true)
    (hget : env.getConfig (effectiveProject o config) config.LogtailConfig.ConfigName 0 = Except.ok serverConfig)
    (ht1 : config.LogtailConfig.InputType = "file")
    (ht2 : serverConfig.InputType = "file")
    (h1 : (InterfaceToString (mapGet config.LogtailConfig.LogtailConfigMap "logPath")).1 =
          (InterfaceToString (mapGet serverConfig.InputDetail "logPath")).1)
    (h2 : (InterfaceToString (mapGet config.LogtailConfig.LogtailConfigMap "filePattern")).1 =
          (InterfaceToString (mapGet serverConfig.InputDetail "filePattern")).1)
    (h3 : InterfaceToJSONString (mapGet config.LogtailConfig.LogtailConfigMap "dockerIncludeEnv") =
          InterfaceToJSONString (mapGet serverConfig.InputDetail "dockerIncludeEnv"))
    (h4 : InterfaceToJSONString (mapGet config.LogtailConfig.LogtailConfigMap "dockerIncludeLabel") =
          InterfaceToJSONString (mapGet serverConfig.InputDetail "dockerIncludeLabel"))
    (hchk : env.checkMachineGroupExist (effectiveProject o config) (effectiveMachineGroup flags config) 0 = Except.ok true)
    (hg : env.getAppliedMachineGroups (effectiveProject o config) config.LogtailConfig.ConfigName 0 = Except.ok gs)
    (hbound : effectiveMachineGroup flags config ∈ gs)
    (ha : env.applyConfigToMachineGroup (effectiveProject o config) config.LogtailConfig.ConfigName (effectiveMachineGroup flags config) 0 = none)
    (hmax : 1 ≤ flags.LogOperationMaxRetryTimes) :
    (updateConfigInner env flags o now config).1 = Except.ok () ∧
    ((updateConfigInner env flags o now config).2.2).filter RemoteCall.isMutating =
      [RemoteCall.applyConfigToMachineGroup (effectiveProject o config) config.LogtailConfig.ConfigName (effectiveMachineGroup flags config)] := by
  have hls := makesureLogstoreExist_cached env flags o now (effectiveProject o config) config.Logstore
    ((config.ShardCount).getD 0) ((config.LifeCycle).getD 0) config.ProductCode config.ProductLang hcache
  have hgc := getConfigLoop_first_ok (env.getConfig (effectiveProject o config) config.LogtailConfig.ConfigName)
    flags.LogOperationMaxRetryTimes serverConfig hget hmax
  have hsc := simpleConfigUpdate_unchanged env flags config (effectiveProject o config)
    (buildAliyunLogConfig (effectiveProject o config) config.Logstore config) serverConfig ht1 ht2
    (checkFileConfigChanged_false_of_eq _ _ _ _ _ h1 h2 h3 h4)
  have hmge := makesureMachineGroupExist_exists env flags o (effectiveProject o config)
    (effectiveMachineGroup flags config) hchk hmax
  have hmg := machineGroupPhase_existing env flags o now config (effectiveProject o config) gs hg ha hmax
  rw [hmge] at hmg
  simp only [updateConfigInner, hls, hgc, hsimple, hsc, hmg]
  simp [RemoteCall.isMutating]

/-- Closed witness for `second_pass_issues_exactly_bind_call` on the fixtures. -/
theorem second_pass_issues_exactly_bind_call_witness :
    (updateConfigInner updatePathEnv flags3 cachedWrapper 0 specFile).1 = Except.ok () ∧
    ((updateConfigInner updatePathEnv flags3 cachedWrapper 0 specFile).2.2).filter RemoteCall.isMutating =
      [RemoteCall.applyConfigToMachineGroup "p" "cfg" "mg"] :=
  second_pass_issues_exactly_bind_call updatePathEnv flags3 cachedWrapper 0 specFile serverFileConfig ["mg"]
    rfl rfl rfl rfl rfl rfl rfl rfl rfl rfl rfl (by decide) rfl (by decide)

/-- C5: with `simpleConfigMode` and a remote config whose input type differs from the
declared one, the pass issues exactly one `UpdateConfig` call carrying the locally
built full config object, regardless of the path/pattern field values. -/
theorem type_change_forces_full_update
    (env : ClientEnv) (flags : EnvFlags) (o : OperationWrapper) (now : Int)
    (config : AliyunLogConfigSpec) (serverConfig : LogConfig) (gs : List String)
    (hcache : logstoreCacheExists flags o now (effectiveProject o config) config.Logstore = true)
    (hsimple : config.SimpleConfig = true)
    (hget : env.getConfig (effectiveProject o config) config.LogtailConfig.ConfigName 0 = Except.ok serverConfig)
    (hne : config.LogtailConfig.InputType ≠ serverConfig.InputType)
    (hupd : env.updateConfig (effectiveProject o config) (buildAliyunLogConfig (effectiveProject o config) config.Logstore config) 0 = none)
    (hchk : env.checkMachineGroupExist (effectiveProject o config) (effectiveMachineGroup flags config) 0 = Except.ok true)
    (hg : env.getAppliedMachineGroups (effectiveProject o config) config.LogtailConfig.ConfigName 0 = Except.ok gs)
    (ha : env.applyConfigToMachineGroup (effectiveProject o config) config.LogtailConfig.ConfigName (effectiveMachineGroup flags config) 0 = none)
    (hmax : 1 ≤ flags.LogOperationMaxRetryTimes) :
    (updateConfigInner env flags o now config).1 = Except.ok () ∧
    ((updateConfigInner env flags o now config).2.2).filter RemoteCall.isUpdateConfig =
      [RemoteCall.updateConfig (effectiveProject o config) (buildAliyunLogConfig (effectiveProject o config) config.Logstore config)] := by
  have hls := makesureLogstoreExist_cached env flags o now (effectiveProject o config) config.Logstore
    ((config.ShardCount).getD 0) ((config.LifeCycle).getD 0) config.ProductCode config.ProductLang hcache
  have hgc := getConfigLoop_first_ok (env.getConfig (effectiveProject o config) config.LogtailConfig.ConfigName)
    flags.LogOperationMaxRetryTimes serverConfig hget hmax
  have hsc := simpleConfigUpdate_type_change env flags config (effectiveProject o config)
    (buildAliyunLogConfig (effectiveProject o config) config.Logstore config) serverConfig hne hupd hmax
  have hmge := makesureMachineGroupExist_exists env flags o (effectiveProject o config)
    (effectiveMachineGroup flags config) hchk hmax
  have hmg := machineGroupPhase_existing env flags o now config (effectiveProject o config) gs hg ha hmax
  rw [hmge] at hmg
  simp only [updateConfigInner, hls, hgc, hsimple, hsc, hmg]
  simp [RemoteCall.isUpdateConfig]

/-- Remote snapshot fixture with a non-file input type. -/
def serverPluginConfig : LogConfig :=
  { serverFileConfig with InputType := "plugin" }

/-- Remote behaviour fixture for the type-change scenario. -/
def typeChangeEnv : ClientEnv :=
  { updatePathEnv with getConfig := fun _ _ _ => Except.ok serverPluginConfig }

/-- Closed witness for `type_change_forces_full_update` on the fixtures. -/
theorem type_change_forces_full_update_witness :
    (updateConfigInner typeChangeEnv flags3 cachedWrapper 0 specFile).1 = Except.ok () ∧
    ((updateConfigInner typeChangeEnv flags3 cachedWrapper 0 specFile).2.2).filter RemoteCall.isUpdateConfig =
      [RemoteCall.updateConfig "p" (buildAliyunLogConfig "p" "ls" specFile)] :=
  type_change_forces_full_update typeChangeEnv flags3 cachedWrapper 0 specFile serverPluginConfig ["mg"]
    rfl rfl rfl (by decide) rfl rfl rfl rfl (by decide)

/-- C10: with `simpleConfigMode` and both input types `"file"`, a desired spec whose
`logPath` or `filePattern` reads back empty (missing, empty, or not a string) leads to
no `UpdateConfig` call at all, even though the remote detail may differ. -/
theorem patch_gate_requires_nonempty_fields
    (env : ClientEnv) (flags : EnvFlags) (o : OperationWrapper) (now : Int)
    (config : AliyunLogConfigSpec) (serverConfig : LogConfig) (gs : List String)
    (hcache : logstoreCacheExists flags o now (effectiveProject o config) config.Logstore = true)
    (hsimple : config.SimpleConfig = true)
    (hget : env.getConfig (effectiveProject o config) config.LogtailConfig.ConfigName 0 = Except.ok serverConfig)
    (ht1 : config.LogtailConfig.InputType = "file")
    (ht2 : serverConfig.InputType = "file")
    (hemp : (InterfaceToString (mapGet config.LogtailConfig.LogtailConfigMap "logPath")).1 = "" ∨
            (InterfaceToString (mapGet config.LogtailConfig.LogtailConfigMap "filePattern")).1 = "")
    (hchk : env.checkMachineGroupExist (effectiveProject o config) (effectiveMachineGroup flags config) 0 = Except.ok true)
    (hg : env.getAppliedMachineGroups (effectiveProject o config) config.LogtailConfig.ConfigName 0 = Except.ok gs)
    (ha : env.applyConfigToMachineGroup (effectiveProject o config) config.LogtailConfig.ConfigName (effectiveMachineGroup flags config) 0 = none)
    (hmax : 1 ≤ flags.LogOperationMaxRetryTimes) :
    (updateConfigInner env flags o now config).1 = Except.ok () ∧
    ((updateConfigInner env flags o now config).2.2).filter RemoteCall.isUpdateConfig = [] := by
  have hls := makesureLogstoreExist_cached env flags o now (effectiveProject o config) config.Logstore
    ((config.ShardCount).getD 0) ((config.LifeCycle).getD 0) config.ProductCode config.ProductLang hcache
  have hgc := getConfigLoop_first_ok (env.getConfig (effectiveProject o config) config.LogtailConfig.ConfigName)
    flags.LogOperationMaxRetryTimes serverConfig hget hmax
  have hsc := simpleConfigUpdate_empty_gate env flags config (effectiveProject o config)
    (buildAliyunLogConfig (effectiveProject o config) config.Logstore config) serverConfig ht1 ht2 hemp
  have hmge := makesureMachineGroupExist_exists env flags o (effectiveProject o config)
    (effectiveMachineGroup flags config) hchk hmax
  have hmg := machineGroupPhase_existing env flags o now config (effectiveProject o config) gs hg ha hmax
  rw [hmge] at hmg
  simp only [updateConfigInner, hls, hgc, hsimple, hsc, hmg]
  simp [RemoteCall.isUpdateConfig]

/-- Desired-spec fixture with no `logPath` entry: the extracted path is empty while the
remote config's path differs. -/
def specNoPath : AliyunLogConfigSpec :=
  { specFile with
    LogtailConfig :=
      { ConfigName := "cfg"
        InputType := "file"
        LogtailConfigMap := [("filePattern", JValue.str "*.log")] } }

/-- Closed witness for `patch_gate_requires_nonempty_fields`: the remote `logPath` is
`/var/log` while the spec has none, yet no update call is issued. -/
theorem patch_gate_requires_nonempty_fields_witness :
    (InterfaceToString (mapGet serverFileConfig.InputDetail "logPath")).1 = "/var/log" ∧
    (updateConfigInner updatePathEnv flags3 cachedWrapper 0 specNoPath).1 = Except.ok () ∧
    ((updateConfigInner updatePathEnv flags3 cachedWrapper 0 specNoPath).2.2).filter RemoteCall.isUpdateConfig = [] := by
  have h := patch_gate_requires_nonempty_fields updatePathEnv flags3 cachedWrapper 0 specNoPath
    serverFileConfig ["mg"] rfl rfl rfl rfl rfl (Or.inl rfl) rfl rfl rfl (by decide)
  exact ⟨rfl, h.1, h.2⟩

/-- Remote behaviour fixture in which the machine-group existence check and creation
always fail, while everything else succeeds. -/
def mgFailEnv : ClientEnv :=
  { baseEnv with
    checkMachineGroupExist := fun _ _ _ => Except.error { code := "ServerBusy", message := "busy" }
    createMachineGroup := fun _ _ _ => some { code := "ServerBusy", message := "busy" } }

/-- C2 counterexample: ensuring the machine group fails even after exhausting all retry
attempts (`makesureMachineGroupExist` returns the error), yet the reconciliation pass
returns success — the error is assigned to the blank identifier and ignored. -/
theorem machineGroup_failure_not_aborting :
    (makesureMachineGroupExist mgFailEnv flags3 cachedWrapper "p" "mg").1 =
      some { code := "ServerBusy", message := "busy" } ∧
    (updateConfigInner mgFailEnv flags3 cachedWrapper 0 specFile).1 = Except.ok () :=
  ⟨rfl, rfl⟩

/-- C2 amended: when the machine-group existence check and creation fail on every
attempt, `makesureMachineGroupExist` does return the last error to its caller, but
`updateConfigInner` discards it, proceeds to the bind call, and the pass succeeds;
only the group-ensure calls show the exhausted retries. -/
theorem machineGroup_ensure_error_discarded
    (env : ClientEnv) (flags : EnvFlags) (o : OperationWrapper) (now : Int)
    (config : AliyunLogConfigSpec) (e0 : SlsError) (ce me : Nat → SlsError)
    (hcache : logstoreCacheExists flags o now (effectiveProject o config) config.Logstore = true)
    (hget : env.getConfig (effectiveProject o config) config.LogtailConfig.ConfigName 0 = Except.error e0)
    (hcode : e0.code = "ConfigNotExist")
    (hcc : env.createConfig (effectiveProject o config) (buildAliyunLogConfig (effectiveProject o config) config.Logstore config) 0 = none)
    (hchkf : ∀ j, j < flags.LogOperationMaxRetryTimes →
      env.checkMachineGroupExist (effectiveProject o config) (effectiveMachineGroup flags config) j = Except.error (ce j))
    (hcrf : ∀ j, j < flags.LogOperationMaxRetryTimes →
      env.createMachineGroup (effectiveProject o config) (effectiveMachineGroup flags config) j = some (me j))
    (ha : env.applyConfigToMachineGroup (effectiveProject o config) config.LogtailConfig.ConfigName (effectiveMachineGroup flags config) 0 = none)
    (hmax : 1 ≤ flags.LogOperationMaxRetryTimes) :
    (makesureMachineGroupExist env flags o (effectiveProject o config) (effectiveMachineGroup flags config)).1 =
      some (me (flags.LogOperationMaxRetryTimes - 1)) ∧
    (updateConfigInner env flags o now config).1 = Except.ok () := by
  have hmgfail := makesureMachineGroupExist_all_fail env flags o (effectiveProject o config)
    (effectiveMachineGroup flags config) ce me hchkf hmax hcrf
  refine ⟨by rw [hmgfail], ?_⟩
  have hls := makesureLogstoreExist_cached env flags o now (effectiveProject o config) config.Logstore
    ((config.ShardCount).getD 0) ((config.LifeCycle).getD 0) config.ProductCode config.ProductLang hcache
  have hgc := getConfigLoop_notexist (env.getConfig (effectiveProject o config) config.LogtailConfig.ConfigName)
    (fun _ => e0) flags.LogOperationMaxRetryTimes 0 hmax (by intro j hj; omega) hget hcode
  have hccl := retryLoop_first_ok
    (env.createConfig (effectiveProject o config) (buildAliyunLogConfig (effectiveProject o config) config.Logstore config))
    (some e0) flags.LogOperationMaxRetryTimes hcc hmax
  have hmg := machineGroupPhase_new env flags o now config (effectiveProject o config) ha hmax
  rw [hmgfail] at hmg
  simp only [updateConfigInner, hls, hgc, hccl, hmg]

/-- Closed witness for `machineGroup_ensure_error_discarded` on the fixtures. -/
theorem machineGroup_ensure_error_discarded_witness :
    (makesureMachineGroupExist mgFailEnv flags3 cachedWrapper "p" "mg").1 =
      some { code := "ServerBusy", message := "busy" } ∧
    (updateConfigInner mgFailEnv flags3 cachedWrapper 0 specFile).1 = Except.ok () :=
  machineGroup_ensure_error_discarded mgFailEnv flags3 cachedWrapper 0 specFile
    { code := "ConfigNotExist", message := "config not exist" }
    (fun _ => { code := "ServerBusy", message := "busy" })
    (fun _ => { code := "ServerBusy", message := "busy" })
    rfl rfl rfl rfl (fun _ _ => rfl) (fun _ _ => rfl) rfl (by decide)

/-- C3: a `ConfigNotExist` fetch error stops the fetch loop at once (after `k + 1`
calls when `k` other errors preceded it) and drives the create branch; fetch errors of
any other code are retried up to the cap and, after exhaustion, also fall through to
the create branch — `CreateConfig` is called and no fetch failure is surfaced. -/
theorem configNotExist_and_exhaustion_drive_create
    (env : ClientEnv) (flags : EnvFlags) (o : OperationWrapper) (now : Int)
    (config : AliyunLogConfigSpec) (e : Nat → SlsError) (k : Nat)
    (hcache : logstoreCacheExists flags o now (effectiveProject o config) config.Logstore = true)
    (hcc : env.createConfig (effectiveProject o config) (buildAliyunLogConfig (effectiveProject o config) config.Logstore config) 0 = none)
    (hchk : env.checkMachineGroupExist (effectiveProject o config) (effectiveMachineGroup flags config) 0 = Except.ok true)
    (ha : env.applyConfigToMachineGroup (effectiveProject o config) config.LogtailConfig.ConfigName (effectiveMachineGroup flags config) 0 = none)
    (hmax : 1 ≤ flags.LogOperationMaxRetryTimes) :
    ((∀ j, j < k → env.getConfig (effectiveProject o config) config.LogtailConfig.ConfigName j = Except.error (e j) ∧ (e j).code ≠ "ConfigNotExist") →
      env.getConfig (effectiveProject o config) config.LogtailConfig.ConfigName k = Except.error (e k) →
      (e k).code = "ConfigNotExist" →
      k < flags.LogOperationMaxRetryTimes →
      (updateConfigInner env flags o now config).1 = Except.ok () ∧
      (updateConfigInner env flags o now config).2.2 =
        List.replicate (k + 1) (RemoteCall.getConfig (effectiveProject o config) config.LogtailConfig.ConfigName) ++
          RemoteCall.createConfig (effectiveProject o config) config.LogtailConfig.ConfigName ::
          RemoteCall.checkMachineGroupExist (effectiveProject o config) (effectiveMachineGroup flags config) ::
          [RemoteCall.applyConfigToMachineGroup (effectiveProject o config) config.LogtailConfig.ConfigName (effectiveMachineGroup flags config)]) ∧
    ((∀ j, j < flags.LogOperationMaxRetryTimes → env.getConfig (effectiveProject o config) config.LogtailConfig.ConfigName j = Except.error (e j) ∧ (e j).code ≠ "ConfigNotExist") →
      (updateConfigInner env flags o now config).1 = Except.ok () ∧
      (updateConfigInner env flags o now config).2.2 =
        List.replicate flags.LogOperationMaxRetryTimes (RemoteCall.getConfig (effectiveProject o config) config.LogtailConfig.ConfigName) ++
          RemoteCall.createConfig (effectiveProject o config) config.LogtailConfig.ConfigName ::
          RemoteCall.checkMachineGroupExist (effectiveProject o config) (effectiveMachineGroup flags config) ::
          [RemoteCall.applyConfigToMachineGroup (effectiveProject o config) config.LogtailConfig.ConfigName (effectiveMachineGroup flags config)]) := by
  have hls := makesureLogstoreExist_cached env flags o now (effectiveProject o config) config.Logstore
    ((config.ShardCount).getD 0) ((config.LifeCycle).getD 0) config.ProductCode config.ProductLang hcache
  have hmge := makesureMachineGroupExist_exists env flags o (effectiveProject o config)
    (effectiveMachineGroup flags config) hchk hmax
  have hmg := machineGroupPhase_new env flags o now config (effectiveProject o config) ha hmax
  rw [hmge] at hmg
  constructor
  · intro hpre hop hcode hk
    have hgc := getConfigLoop_notexist (env.getConfig (effectiveProject o config) config.LogtailConfig.ConfigName)
      e flags.LogOperationMaxRetryTimes k hk hpre hop hcode
    have hccl := retryLoop_first_ok
      (env.createConfig (effectiveProject o config) (buildAliyunLogConfig (effectiveProject o config) config.Logstore config))
      (some (e k)) flags.LogOperationMaxRetryTimes hcc hmax
    simp only [updateConfigInner, hls, hgc, hccl, hmg]
    simp
  · intro hpre
    have hgc := getConfigLoop_exhaust (env.getConfig (effectiveProject o config) config.LogtailConfig.ConfigName)
      e flags.LogOperationMaxRetryTimes hmax hpre
    have hccl := retryLoop_first_ok
      (env.createConfig (effectiveProject o config) (buildAliyunLogConfig (effectiveProject o config) config.Logstore config))
      (some (e (flags.LogOperationMaxRetryTimes - 1))) flags.LogOperationMaxRetryTimes hcc hmax
    simp only [updateConfigInner, hls, hgc, hccl, hmg]
    simp

/-- Remote behaviour fixture whose config fetch always fails with a retriable error. -/
def fetchBusyEnv : ClientEnv :=
  { baseEnv with
    getConfig := fun _ _ _ => Except.error { code := "ServerBusy", message := "busy" } }

/-- Closed witness for `configNotExist_and_exhaustion_drive_create`: the
`ConfigNotExist` case stops after one fetch, and the always-busy case fetches three
times; both then create the config and succeed. -/
theorem configNotExist_and_exhaustion_drive_create_witness :
    ((updateConfigInner baseEnv flags3 cachedWrapper 0 specFile).1 = Except.ok () ∧
      (updateConfigInner baseEnv flags3 cachedWrapper 0 specFile).2.2 =
        List.replicate 1 (RemoteCall.getConfig "p" "cfg") ++
          RemoteCall.createConfig "p" "cfg" :: RemoteCall.checkMachineGroupExist "p" "mg" ::
          [RemoteCall.applyConfigToMachineGroup "p" "cfg" "mg"]) ∧
    ((updateConfigInner fetchBusyEnv flags3 cachedWrapper 0 specFile).1 = Except.ok () ∧
      (updateConfigInner fetchBusyEnv flags3 cachedWrapper 0 specFile).2.2 =
        List.replicate 3 (RemoteCall.getConfig "p" "cfg") ++
          RemoteCall.createConfig "p" "cfg" :: RemoteCall.checkMachineGroupExist "p" "mg" ::
          [RemoteCall.applyConfigToMachineGroup "p" "cfg" "mg"]) := by
  constructor
  · exact (configNotExist_and_exhaustion_drive_create baseEnv flags3 cachedWrapper 0 specFile
      (fun _ => { code := "ConfigNotExist", message := "config not exist" }) 0
      rfl rfl rfl rfl (by decide)).1 (by intro j hj; omega) rfl rfl (by decide)
  · exact (configNotExist_and_exhaustion_drive_create fetchBusyEnv flags3 cachedWrapper 0 specFile
      (fun _ => { code := "ServerBusy", message := "busy" }) 0
      rfl rfl rfl rfl (by decide)).2 (by intro j hj; exact ⟨rfl, by decide⟩)

/-- Remote behaviour fixture: the machine group is absent and every creation attempt
fails with an error whose message mentions neither the operation nor any resource. -/
def mgAbsentFailEnv : ClientEnv :=
  { baseEnv with
    checkMachineGroupExist := fun _ _ _ => Except.ok false
    createMachineGroup := fun _ _ _ => some { code := "InternalServerError", message := "boom" } }

/-- C7 counterexample: `CreateMachineGroup` failing on all 3 attempts makes
`makesureMachineGroupExist` return the last client error completely unchanged — its
message mentions neither the operation name nor the project or machine-group
identifiers, contradicting the claimed annotation. -/
theorem retry_error_unannotated :
    makesureMachineGroupExist mgAbsentFailEnv flags3 plainWrapper "p" "my-group" =
      (some { code := "InternalServerError", message := "boom" }, plainWrapper,
        RemoteCall.checkMachineGroupExist "p" "my-group" ::
          List.replicate 3 (RemoteCall.createMachineGroup "p" "my-group")) ∧
    containsSubstr "boom" "my-group" = false ∧
    containsSubstr "boom" "p" = false ∧
    containsSubstr "boom" "CreateMachineGroup" = false :=
  ⟨rfl, rfl, rfl, rfl⟩

/-- C7 amended: a retried operation failing on every attempt is invoked exactly
`maxAttempts` times and the last client error is returned (raw, not annotated, in the
case of `makesureMachineGroupExist`); one failing `maxAttempts - 1` times and then
succeeding is also invoked exactly `maxAttempts` times and returns success. -/
theorem retry_bound_exact
    (env : ClientEnv) (flags : EnvFlags) (o : OperationWrapper)
    (project machineGroup : String) (e : Nat → SlsError)
    (hchk : env.checkMachineGroupExist project machineGroup 0 = Except.ok false)
    (hmax : 1 ≤ flags.LogOperationMaxRetryTimes) :
    ((∀ j, j < flags.LogOperationMaxRetryTimes → env.createMachineGroup project machineGroup j = some (e j)) →
      makesureMachineGroupExist env flags o project machineGroup =
        (some (e (flags.LogOperationMaxRetryTimes - 1)), o,
          RemoteCall.checkMachineGroupExist project machineGroup ::
            List.replicate flags.LogOperationMaxRetryTimes (RemoteCall.createMachineGroup project machineGroup))) ∧
    ((∀ j, j < flags.LogOperationMaxRetryTimes - 1 → env.createMachineGroup project machineGroup j = some (e j)) →
      env.createMachineGroup project machineGroup (flags.LogOperationMaxRetryTimes - 1) = none →
      makesureMachineGroupExist env flags o project machineGroup =
        (none, o,
          RemoteCall.checkMachineGroupExist project machineGroup ::
            List.replicate flags.LogOperationMaxRetryTimes (RemoteCall.createMachineGroup project machineGroup))) := by
  constructor
  · intro hfail
    exact makesureMachineGroupExist_create_all_fail env flags o project machineGroup e hchk hmax hfail
  · intro hfail hok
    have h := makesureMachineGroupExist_create_fail_then_ok env flags o project machineGroup e
      (flags.LogOperationMaxRetryTimes - 1) hchk (by omega) hfail hok
    have heq : flags.LogOperationMaxRetryTimes - 1 + 1 = flags.LogOperationMaxRetryTimes := by omega
    rw [heq] at h
    exact h

/-- Remote behaviour fixture: the machine group is absent; creation fails twice and
succeeds on the third attempt. -/
def mgFlakyEnv : ClientEnv :=
  { baseEnv with
    checkMachineGroupExist := fun _ _ _ => Except.ok false
    createMachineGroup := fun _ _ i =>
      if i < 2 then some { code := "ServerBusy", message := "busy" } else none }

/-- Closed witness for `retry_bound_exact` with 3 attempts: an always-failing creation
runs 3 times and returns the raw error; a fail-fail-succeed creation runs 3 times and
returns success. -/
theorem retry_bound_exact_witness :
    makesureMachineGroupExist mgAbsentFailEnv flags3 plainWrapper "p" "g" =
      (some { code := "InternalServerError", message := "boom" }, plainWrapper,
        RemoteCall.checkMachineGroupExist "p" "g" ::
          List.replicate 3 (RemoteCall.createMachineGroup "p" "g")) ∧
    makesureMachineGroupExist mgFlakyEnv flags3 plainWrapper "p" "g" =
      (none, plainWrapper,
        RemoteCall.checkMachineGroupExist "p" "g" ::
          List.replicate 3 (RemoteCall.createMachineGroup "p" "g")) := by
  constructor
  · exact (retry_bound_exact mgAbsentFailEnv flags3 plainWrapper "p" "g"
      (fun _ => { code := "InternalServerError", message := "boom" }) rfl (by decide)).1
      (fun _ _ => rfl)
  · exact (retry_bound_exact mgFlakyEnv flags3 plainWrapper "p" "g"
      (fun _ => { code := "ServerBusy", message := "busy" }) rfl (by decide)).2
      (by intro j hj
          have : j < 2 := by simpa [flags3] using hj
          simp [mgFlakyEnv, this])
      (by simp [mgFlakyEnv, flags3])
